import Mathlib

/-!
Shallow embedding of the session/resource lifecycle core of the
`pancurses-result` crate (files `src/initialize.rs`, `src/curses.rs`,
`src/window.rs`, `src/color.rs`, `src/point.rs`).

The underlying `pancurses` library is an opaque external collaborator: each
primitive it exposes is modelled by an oracle return value passed in as an
argument, and by an entry recorded in a process-wide invocation trace.  The
process-wide `INITIALIZED` flag and the trace together form `GlobalState`.
Rust `Result<T, ()>` is modelled as `Except Unit T`; a Rust panic is modelled
by the `PanicOr` type.  Machine integers (`i32`) are modelled as `Int`; none
of the operations verified here performs arithmetic that can overflow `i32`
on the inputs the claims are about.
-/

namespace Pancurses

/-- The sentinel failure value `pancurses::ERR` (the C curses `ERR`, -1). -/
def ERR : Int := -1

/-- Result conversion from `src/lib.rs`: `fn check(r: i32) -> Result<(), ()>`
maps the sentinel failure value to `Err(())` and everything else to `Ok(())`. -/
def check (r : Int) : Except Unit Unit :=
  if r = ERR then Except.error () else Except.ok ()

/-- The primitives of the underlying library whose invocations the lifecycle
claims count: `pancurses::initscr`, `pancurses::endwin`,
`pancurses::start_color`. -/
inductive Prim where
  | initscrPrim
  | endwinPrim
  | startColorPrim
  deriving DecidableEq, Repr

/-- Process-wide state: the `INITIALIZED: Mutex<bool>` flag from
`src/initialize.rs`, plus the trace of primitive invocations performed so far
(used to express "the primitive was invoked n times").  All accesses happen
under the mutex in the source, so one sequential state suffices. -/
structure GlobalState where
  initialized : Bool
  trace : List Prim
  deriving DecidableEq, Repr

/-- A two-dimensional point (`src/point.rs`), `y` before `x`. -/
structure Point where
  y : Int
  x : Int
  deriving DecidableEq, Repr

/-- A two-dimensional dimension (`src/point.rs`). -/
structure Dimension where
  rows : Int
  columns : Int
  deriving DecidableEq, Repr

/-- The observable attributes of a native `pancurses::Window`: its beginning
coordinates (`get_beg_yx`) and its maximum coordinates (`get_max_yx`).  The
native window is otherwise opaque. -/
structure NativeWindow where
  begY : Int
  begX : Int
  maxY : Int
  maxX : Int
  deriving DecidableEq, Repr

/-- `Window` from `src/window.rs`: wraps one native window. -/
structure Window where
  w : NativeWindow
  deriving DecidableEq, Repr

/-- `Color` from `src/color.rs`: a zero-sized capability token
(`PhantomData<()>` in the source). -/
structure Color where
  deriving DecidableEq, Repr

/-- `Curses` from `src/curses.rs`.  The private field `color: Option<Color>`
is named `colorOpt` here because Lean does not allow a field and a method of
the same name; the accessor methods keep their source names `color` and
`color_mut`.  The `key_name_mutex` field is modelled separately by the
`KeyNameStep` interleaving semantics below. -/
structure Curses where
  window : Window
  colorOpt : Option Color
  deriving DecidableEq, Repr

/-- `Curses::new` from `src/curses.rs`: starts with no color capability. -/
def Curses.new (window : Window) : Curses :=
  ⟨window, none⟩

/-- `initscr` from `src/initialize.rs`: under the lock, if the flag is set,
return `Err(())`; otherwise set the flag, then invoke `pancurses::initscr()`
(whose returned root native window is the oracle argument `rootWin`) and
return a `Curses` handle owning the root window. -/
def initscr (rootWin : NativeWindow) (s : GlobalState) :
    Except Unit Curses × GlobalState :=
  if s.initialized then
    (Except.error (), s)
  else
    (Except.ok (Curses.new (Window.mk rootWin)),
     ⟨true, s.trace ++ [Prim.initscrPrim]⟩)

/-- `end_window` from `src/initialize.rs`: under the lock, if the flag is set,
invoke `pancurses::endwin()` (oracle return `endwinRet`), propagate its
checked result with `?` — so the flag is reset to `false` only when the
primitive did not fail — and otherwise (flag clear) return `Err(())` without
touching anything. -/
def end_window (endwinRet : Int) (s : GlobalState) :
    Except Unit Unit × GlobalState :=
  if s.initialized then
    match check endwinRet with
    | Except.error _ => (Except.error (), ⟨s.initialized, s.trace ++ [Prim.endwinPrim]⟩)
    | Except.ok _ => (Except.ok (), ⟨false, s.trace ++ [Prim.endwinPrim]⟩)
  else
    (Except.error (), s)

/-- Outcome of a Rust expression that may panic. -/
inductive PanicOr (α : Type) where
  | panicked (msg : String)
  | value (v : α)
  deriving DecidableEq, Repr

/-- `Curses::color` from `src/curses.rs`: `self.color.as_ref().expect(...)`.
Panics with the source's message when the subsystem was never started; the
receiver is taken by shared reference and nothing is mutated. -/
def Curses.color (c : Curses) : PanicOr Color :=
  match c.colorOpt with
  | none => PanicOr.panicked "Color subsystem has not yet been successfully started"
  | some col => PanicOr.value col

/-- `Curses::color_mut` from `src/curses.rs`: `self.color.as_mut().expect(...)`.
Same behavior as `color`; no field of `self` is modified. -/
def Curses.color_mut (c : Curses) : PanicOr Color :=
  match c.colorOpt with
  | none => PanicOr.panicked "Color subsystem has not yet been successfully started"
  | some col => PanicOr.value col

/-- `Curses::start_color` from `src/curses.rs`: if `self.color.is_none()`,
invoke `pancurses::start_color()` (oracle return `ret`), propagate a checked
failure with `?`, and on success store `Some(Color::new())`; if the capability
already exists, do nothing and return `Ok(())`. -/
def Curses.start_color (ret : Int) (c : Curses) (s : GlobalState) :
    Except Unit Unit × Curses × GlobalState :=
  match c.colorOpt with
  | some _ => (Except.ok (), c, s)
  | none =>
    let s1 : GlobalState := ⟨s.initialized, s.trace ++ [Prim.startColorPrim]⟩
    match check ret with
    | Except.error _ => (Except.error (), c, s1)
    | Except.ok _ => (Except.ok (), ⟨c.window, some Color.mk⟩, s1)

/-- Run a sequence of `start_color` calls, one oracle return per call,
threading the handle and the global state. -/
def start_color_run (rets : List Int) (c : Curses) (s : GlobalState) :
    Curses × GlobalState :=
  match rets with
  | [] => (c, s)
  | r :: rest =>
    let step := Curses.start_color r c s
    start_color_run rest step.2.1 step.2.2

/-- `Curses::end_curses` from `src/curses.rs`: call `end_window()`, then
`std::mem::forget(self)` — which suppresses the `Drop` destructor — and
return the result.  The third component records whether a destructor is still
pending for the handle at scope exit (`false`: it was forgotten). -/
def Curses.end_curses (endwinRet : Int) (s : GlobalState) :
    Except Unit Unit × GlobalState × Bool :=
  let r := end_window endwinRet s
  (r.1, r.2, false)

/-- `impl Drop for Curses` from `src/curses.rs` as it runs at scope exit:
if a destructor is still pending (the handle was not forgotten), execute
`end_window().unwrap()`, which panics when `end_window` fails; if the handle
was forgotten, nothing runs at all. -/
def drop_curses (dropPending : Bool) (endwinRet : Int) (s : GlobalState) :
    PanicOr Unit × GlobalState :=
  if dropPending then
    match end_window endwinRet s with
    | (Except.ok _, s1) => (PanicOr.value (), s1)
    | (Except.error _, s1) => (PanicOr.panicked "called unwrap on an Err value", s1)
  else
    (PanicOr.value (), s)

/-- The scenario of claim C3: explicit `end_curses` on a live handle followed
by the handle's scope exit.  Oracle `r1` is the `endwin` return seen by the
explicit path; `r2` is the one a destructor would see if it ran.  Yields the
explicit result, the scope-exit outcome, and the final global state. -/
def explicit_then_scope_exit (r1 r2 : Int) (s : GlobalState) :
    Except Unit Unit × PanicOr Unit × GlobalState :=
  let e := Curses.end_curses r1 s
  let d := drop_curses e.2.2 r2 e.2.1
  (e.1, d.1, d.2)

/-- Modelled from the spec: the helper `as_millis` lives in the crate's
`general` module, which is not present under `src/`; per the spec a duration
is "rounded down", so `as_millis` converts a `Duration` (here: a nanosecond
count) to whole milliseconds, rounding down. -/
def as_millis (nanos : Nat) : Int :=
  ((nanos / 1000000 : Nat) : Int)

/-- The observable effect of `Curses::set_timeout`: either the validation
rejects the duration before any primitive runs, or `pancurses::half_delay`
is invoked with the computed tenths-of-a-second argument. -/
inductive SetTimeoutEffect where
  | validationFailure
  | halfDelayCall (tenths : Int)
  deriving DecidableEq, Repr

/-- `Curses::set_timeout` from `src/curses.rs`: compute
`tenths = as_millis(duration) / 100`; if `tenths < 1 || tenths > 255` fail
validation with `Err(())?`, otherwise call `half_delay(tenths)`. -/
def Curses.set_timeout (durationNanos : Nat) : SetTimeoutEffect :=
  let tenths := as_millis durationNanos / 100
  if tenths < 1 ∨ tenths > 255 then
    SetTimeoutEffect.validationFailure
  else
    SetTimeoutEffect.halfDelayCall tenths

/-- The invocation of the `copywin` primitive made by the region-copy methods
of `src/window.rs`: source and destination native windows, the six region
coordinates, and the final boolean directive (`true` selects the overlay
behavior of curses `copywin`, which does not copy blank cells; `false`
selects overwrite, which copies every cell). -/
structure CopywinCall where
  src : NativeWindow
  dst : NativeWindow
  srcStartY : Int
  srcStartX : Int
  dstStartY : Int
  dstStartX : Int
  dstEndY : Int
  dstEndX : Int
  overlayFlag : Bool
  deriving DecidableEq, Repr

/-- `Window::overwrite_region_onto` from `src/window.rs`: invokes
`self.w.copywin(&destination.w, ss.y, ss.x, ds.y, ds.x, de.y, de.x, true)` —
note the literal final argument `true` in the source. -/
def Window.overwrite_region_onto (w : Window) (source_start : Point)
    (destination : Window) (destination_start destination_end : Point) :
    CopywinCall :=
  ⟨w.w, destination.w, source_start.y, source_start.x, destination_start.y,
   destination_start.x, destination_end.y, destination_end.x, true⟩

/-- `Window::overlay_region_onto` from `src/window.rs`: invokes
`self.w.copywin(&destination.w, ss.y, ss.x, ds.y, ds.x, de.y, de.x, true)`. -/
def Window.overlay_region_onto (w : Window) (source_start : Point)
    (destination : Window) (destination_start destination_end : Point) :
    CopywinCall :=
  ⟨w.w, destination.w, source_start.y, source_start.x, destination_start.y,
   destination_start.x, destination_end.y, destination_end.x, true⟩

/-- Modelled from the spec: the external `copywin` primitive's effect on the
destination surface's cells (`none` is a blank cell).  Inside the destination
rectangle the corresponding source cell is copied; with the overlay directive
(`true`) a blank source cell leaves the destination cell unchanged, with the
overwrite directive (`false`) every cell, blank included, is copied. -/
def copywinSem (srcGrid dstGrid : Int → Int → Option Char) (call : CopywinCall)
    (y x : Int) : Option Char :=
  if call.dstStartY ≤ y ∧ y ≤ call.dstEndY ∧ call.dstStartX ≤ x ∧ x ≤ call.dstEndX then
    let sc := srcGrid (call.srcStartY + (y - call.dstStartY))
                      (call.srcStartX + (x - call.dstStartX))
    if call.overlayFlag then
      match sc with
      | none => dstGrid y x
      | some c => some c
    else sc
  else
    dstGrid y x

/-- An everywhere-blank source surface, used as a concrete test grid. -/
def blankSourceGrid : Int → Int → Option Char :=
  fun _ _ => none

/-- A destination surface holding a letter in every cell, used as a concrete
test grid. -/
def letterDestGrid : Int → Int → Option Char :=
  fun _ _ => some 'a'

/-- `Curses::set_mouse_interval` from `src/curses.rs`: invokes
`pancurses::mouseinterval(as_millis(interval))`, discards its return value
(oracle `primRet`), and returns `Ok(())` unconditionally. -/
def Curses.set_mouse_interval (intervalNanos : Nat) (primRet : Int) :
    Except Unit Unit :=
  Except.ok ()

/-- `Curses::set_mouse_mask` from `src/curses.rs`: invokes
`pancurses::mousemask(mask, old_mask_ptr)` and wraps whatever mask the
primitive returns (oracle `primRet`) in `Ok`, unconditionally. -/
def Curses.set_mouse_mask (mask : Int) (primRet : Int) : Except Unit Int :=
  Except.ok primRet

/-- `Curses::set_title` from `src/curses.rs`: invokes
`pancurses::set_title(title)` (which returns unit) and wraps it in `Ok`,
unconditionally. -/
def Curses.set_title (title : String) : Except Unit Unit :=
  Except.ok ()

/-- `Window::beginning` from `src/window.rs`: `get_beg_yx()` converted to a
`Point` (`y` first). -/
def Window.beginning (w : Window) : Point :=
  ⟨w.w.begY, w.w.begX⟩

/-- `Window::size` from `src/window.rs`: `get_max_yx()` converted to a
`Dimension` (rows first). -/
def Window.size (w : Window) : Dimension :=
  ⟨w.w.maxY, w.w.maxX⟩

/-- `Window::ending` from `src/window.rs`: beginning plus size,
componentwise. -/
def Window.ending (w : Window) : Point :=
  let p := w.beginning
  let d := w.size
  ⟨p.y + d.rows, p.x + d.columns⟩

/-- Program counter of one thread running `Curses::key_name` from
`src/curses.rs`: `let _key_name = self.key_name_mutex.lock().unwrap();`
followed by `pancurses::keyname(key_code)`, the guard being released at the
end of the function body.  The lock is therefore held exactly for the
duration of the primitive call. -/
inductive KeyNamePc where
  | beforeLock
  | holdingBeforeCall
  | holdingAfterCall
  | done
  deriving DecidableEq, Repr

/-- Whether a thread at this program point holds `key_name_mutex`. -/
def KeyNamePc.holdsLock : KeyNamePc → Bool
  | KeyNamePc.beforeLock => false
  | KeyNamePc.holdingBeforeCall => true
  | KeyNamePc.holdingAfterCall => true
  | KeyNamePc.done => false

/-- Joint state of two threads each invoking `Curses::key_name` once. -/
structure TwoThreads where
  t1 : KeyNamePc
  t2 : KeyNamePc
  deriving DecidableEq, Repr

/-- Interleaving semantics of two concurrent `key_name` invocations under the
mutex: a thread may acquire the lock only while the other thread does not
hold it; performing the `keyname` primitive and releasing the lock are the
remaining steps of each invocation. -/
inductive KeyNameStep : TwoThreads → TwoThreads → Prop where
  | lock1 (t2 : KeyNamePc) : t2.holdsLock = false →
      KeyNameStep ⟨KeyNamePc.beforeLock, t2⟩ ⟨KeyNamePc.holdingBeforeCall, t2⟩
  | call1 (t2 : KeyNamePc) :
      KeyNameStep ⟨KeyNamePc.holdingBeforeCall, t2⟩ ⟨KeyNamePc.holdingAfterCall, t2⟩
  | unlock1 (t2 : KeyNamePc) :
      KeyNameStep ⟨KeyNamePc.holdingAfterCall, t2⟩ ⟨KeyNamePc.done, t2⟩
  | lock2 (t1 : KeyNamePc) : t1.holdsLock = false →
      KeyNameStep ⟨t1, KeyNamePc.beforeLock⟩ ⟨t1, KeyNamePc.holdingBeforeCall⟩
  | call2 (t1 : KeyNamePc) :
      KeyNameStep ⟨t1, KeyNamePc.holdingBeforeCall⟩ ⟨t1, KeyNamePc.holdingAfterCall⟩
  | unlock2 (t1 : KeyNamePc) :
      KeyNameStep ⟨t1, KeyNamePc.holdingAfterCall⟩ ⟨t1, KeyNamePc.done⟩

/-- States reachable from both threads not yet having called `key_name`. -/
inductive KeyNameReachable : TwoThreads → Prop where
  | init : KeyNameReachable ⟨KeyNamePc.beforeLock, KeyNamePc.beforeLock⟩
  | step {a b : TwoThreads} : KeyNameReachable a → KeyNameStep a b →
      KeyNameReachable b

/-- A concrete native window used by witnesses and counterexamples. -/
def sampleNativeWindow : NativeWindow :=
  ⟨0, 0, 5, 5⟩

/-- C1 counterexample: with a live session (flag set) and the end-session
primitive failing (`endwin` returns `ERR`), `end_window` propagates the
failure but leaves the live-session flag SET — it is not cleared "regardless
of the primitive's own outcome" as the claim states, because the `?` operator
returns before the `*initialized = false` assignment runs. -/
theorem C1_counterexample :
    (end_window ERR ⟨true, []⟩).1 = Except.error ()
    ∧ (end_window ERR ⟨true, []⟩).2.initialized = true :=
  ⟨rfl, rfl⟩

/-- C1 (amended): `end_window` with no live session fails and changes
nothing; with a live session it invokes the end-session primitive exactly
once and propagates its outcome, clearing the flag only on success — after
which a subsequent `initscr` succeeds — while on primitive failure the flag
remains set. -/
theorem C1_end_window_amended (r : Int) (s : GlobalState) :
    (s.initialized = false → end_window r s = (Except.error (), s))
    ∧ (s.initialized = true → r ≠ ERR →
        end_window r s = (Except.ok (), ⟨false, s.trace ++ [Prim.endwinPrim]⟩)
        ∧ ∀ rootWin : NativeWindow,
            (initscr rootWin (end_window r s).2).1
              = Except.ok (Curses.new (Window.mk rootWin)))
    ∧ (s.initialized = true → r = ERR →
        end_window r s = (Except.error (), ⟨true, s.trace ++ [Prim.endwinPrim]⟩)) := by
  refine ⟨?_, ?_, ?_⟩
  · intro h
    simp [end_window, h]
  · intro h hr
    constructor
    · simp [end_window, h, check, hr]
    · intro rootWin
      simp [end_window, h, check, hr, initscr]
  · intro h hr
    simp [end_window, h, check, hr]

/-- C1 witness: the amended theorem applied at concrete states — a
successful end on a live session, an end with no live session, and a failing
end on a live session. -/
theorem C1_end_window_amended_witness :
    end_window 0 ⟨true, []⟩ = (Except.ok (), ⟨false, [Prim.endwinPrim]⟩)
    ∧ end_window 0 ⟨false, []⟩ = (Except.error (), ⟨false, []⟩)
    ∧ end_window ERR ⟨true, []⟩ = (Except.error (), ⟨true, [Prim.endwinPrim]⟩) :=
  ⟨((C1_end_window_amended 0 ⟨true, []⟩).2.1 rfl (by decide)).1,
   (C1_end_window_amended 0 ⟨false, []⟩).1 rfl,
   (C1_end_window_amended ERR ⟨true, []⟩).2.2 rfl rfl⟩

/-- C2: a call to `initscr` while the live-session flag is set fails, returns
no handle, invokes no primitive, and leaves the flag set and the whole state
unchanged; a call while the flag is clear sets the flag, invokes the
initialization primitive, and returns a `Curses` handle owning the root
window. -/
theorem C2_initscr_single_session (rootWin : NativeWindow) (s : GlobalState) :
    (s.initialized = true → initscr rootWin s = (Except.error (), s))
    ∧ (s.initialized = false →
        initscr rootWin s
          = (Except.ok (Curses.new (Window.mk rootWin)),
             ⟨true, s.trace ++ [Prim.initscrPrim]⟩)) := by
  constructor
  · intro h
    simp [initscr, h]
  · intro h
    simp [initscr, h]

/-- C2 witness: the theorem applied at a live and at a not-live concrete
state. -/
theorem C2_initscr_single_session_witness :
    initscr sampleNativeWindow ⟨true, [Prim.initscrPrim]⟩
      = (Except.error (), ⟨true, [Prim.initscrPrim]⟩)
    ∧ initscr sampleNativeWindow ⟨false, []⟩
      = (Except.ok (Curses.new (Window.mk sampleNativeWindow)),
         ⟨true, [Prim.initscrPrim]⟩) :=
  ⟨(C2_initscr_single_session sampleNativeWindow ⟨true, [Prim.initscrPrim]⟩).1 rfl,
   (C2_initscr_single_session sampleNativeWindow ⟨false, []⟩).2 rfl⟩

/-- C3: explicit `end_curses` on a handle of a live session followed by the
handle's scope exit invokes the end-session primitive exactly once total
(whatever the primitive's outcomes would be on either path), and the
scope-exit path neither tears down again nor panics, because `end_curses`
forgets the handle and so suppresses the destructor. -/
theorem C3_end_exactly_once (r1 r2 : Int) (s : GlobalState)
    (h : s.initialized = true) :
    (explicit_then_scope_exit r1 r2 s).2.2.trace = s.trace ++ [Prim.endwinPrim]
    ∧ (explicit_then_scope_exit r1 r2 s).2.2.trace.count Prim.endwinPrim
        = s.trace.count Prim.endwinPrim + 1
    ∧ (explicit_then_scope_exit r1 r2 s).2.1 = PanicOr.value () := by
  have htrace : (explicit_then_scope_exit r1 r2 s).2.2.trace
      = s.trace ++ [Prim.endwinPrim] := by
    by_cases hr : r1 = ERR
    · simp [explicit_then_scope_exit, Curses.end_curses, drop_curses, end_window,
            h, check, hr]
    · simp [explicit_then_scope_exit, Curses.end_curses, drop_curses, end_window,
            h, check, hr]
  refine ⟨htrace, ?_, ?_⟩
  · rw [htrace]
    simp
  · by_cases hr : r1 = ERR
    · simp [explicit_then_scope_exit, Curses.end_curses, drop_curses, end_window,
            h, check, hr]
    · simp [explicit_then_scope_exit, Curses.end_curses, drop_curses, end_window,
            h, check, hr]

/-- C3 witness: the theorem applied to a live session with both oracle
returns successful. -/
theorem C3_end_exactly_once_witness :
    (explicit_then_scope_exit 0 0 ⟨true, []⟩).2.2.trace = [Prim.endwinPrim]
    ∧ (explicit_then_scope_exit 0 0 ⟨true, []⟩).2.2.trace.count Prim.endwinPrim
        = List.count Prim.endwinPrim [] + 1
    ∧ (explicit_then_scope_exit 0 0 ⟨true, []⟩).2.1 = PanicOr.value () :=
  C3_end_exactly_once 0 0 ⟨true, []⟩ rfl

/-- C4 counterexample: a duration of 2.6 seconds (2600000000 ns) does NOT
fail validation as the claim requires; `set_timeout` computes 26 tenths and
invokes the `half_delay` primitive with it. -/
theorem C4_counterexample :
    Curses.set_timeout 2600000000 ≠ SetTimeoutEffect.validationFailure
    ∧ Curses.set_timeout 2600000000 = SetTimeoutEffect.halfDelayCall 26 := by
  constructor
  · decide
  · decide

/-- C4 (amended): the permissible window of `Curses::set_timeout` is 0.1 to
25.5 seconds after rounding down to the nearest tenth of a second:
validation fails exactly when the duration is below 0.1 s or at least 25.6 s,
and otherwise the `half_delay` primitive is called with the whole number of
tenths (so 0.16 s is accepted and behaves as 0.1 s, and 2.6 s is accepted
with 26 tenths rather than rejected). -/
theorem C4_set_timeout_amended (nanos : Nat) :
    (Curses.set_timeout nanos = SetTimeoutEffect.validationFailure
       ↔ nanos < 100000000 ∨ 25600000000 ≤ nanos)
    ∧ (100000000 ≤ nanos → nanos < 25600000000 →
        Curses.set_timeout nanos
          = SetTimeoutEffect.halfDelayCall ((nanos / 100000000 : Nat) : Int)) := by
  have hb : as_millis nanos / 100 = ((nanos / 100000000 : Nat) : Int) := by
    unfold as_millis
    omega
  constructor
  · by_cases hc : nanos < 100000000 ∨ 25600000000 ≤ nanos
    · have hcond : as_millis nanos / 100 < 1 ∨ as_millis nanos / 100 > 255 := by
        rw [hb]
        omega
      simp [Curses.set_timeout, hcond, hc]
    · have hcond : ¬(as_millis nanos / 100 < 1 ∨ as_millis nanos / 100 > 255) := by
        rw [hb]
        omega
      simp [Curses.set_timeout, hcond, hc]
  · intro h1 h2
    have hcond : ¬(as_millis nanos / 100 < 1 ∨ as_millis nanos / 100 > 255) := by
      rw [hb]
      omega
    simp [Curses.set_timeout, hcond, hb]
    omega

/-- C4 witness: the amended theorem applied at the boundary durations —
0.1 s and 2.55 s accepted, 0.05 s and 25.6 s rejected, 0.16 s accepted and
behaving as 0.1 s (one tenth), 2.6 s accepted with 26 tenths. -/
theorem C4_set_timeout_amended_witness :
    Curses.set_timeout 100000000 = SetTimeoutEffect.halfDelayCall 1
    ∧ Curses.set_timeout 2550000000 = SetTimeoutEffect.halfDelayCall 25
    ∧ (Curses.set_timeout 50000000 = SetTimeoutEffect.validationFailure)
    ∧ (Curses.set_timeout 25600000000 = SetTimeoutEffect.validationFailure)
    ∧ Curses.set_timeout 160000000 = SetTimeoutEffect.halfDelayCall 1
    ∧ Curses.set_timeout 2600000000 = SetTimeoutEffect.halfDelayCall 26 :=
  ⟨(C4_set_timeout_amended 100000000).2 (by decide) (by decide),
   (C4_set_timeout_amended 2550000000).2 (by decide) (by decide),
   (C4_set_timeout_amended 50000000).1.mpr (by decide),
   (C4_set_timeout_amended 25600000000).1.mpr (by decide),
   (C4_set_timeout_amended 160000000).2 (by decide) (by decide),
   (C4_set_timeout_amended 2600000000).2 (by decide) (by decide)⟩

/-- C5: the region-copy bug — `overwrite_region_onto` and
`overlay_region_onto` build the IDENTICAL `copywin` invocation for every
input (both pass the directive `true`, the overlay directive), so on a
source whose overlap cell is blank the "overwrite" copy leaves the
destination cell `'a'` untouched, where the overwrite directive (`false`)
would have copied the blank over it. -/
theorem C5_overwrite_uses_overlay_directive :
    (∀ (src dst : Window) (ss ds de : Point),
        Window.overwrite_region_onto src ss dst ds de
          = Window.overlay_region_onto src ss dst ds de)
    ∧ (Window.overwrite_region_onto (Window.mk sampleNativeWindow) ⟨0, 0⟩
         (Window.mk sampleNativeWindow) ⟨0, 0⟩ ⟨1, 1⟩).overlayFlag = true
    ∧ copywinSem blankSourceGrid letterDestGrid
        (Window.overwrite_region_onto (Window.mk sampleNativeWindow) ⟨0, 0⟩
          (Window.mk sampleNativeWindow) ⟨0, 0⟩ ⟨1, 1⟩) 0 0 = some 'a'
    ∧ copywinSem blankSourceGrid letterDestGrid
        ⟨sampleNativeWindow, sampleNativeWindow, 0, 0, 0, 0, 1, 1, false⟩ 0 0
        = none := by
  refine ⟨fun src dst ss ds de => rfl, rfl, ?_, ?_⟩
  · decide
  · decide

/-- C6 counterexample: within one session, two `start_color` calls whose
underlying primitive fails each time invoke the start-color primitive twice —
so "the underlying start-color primitive is invoked at most once per session
over any sequence of operations" is false as stated. -/
theorem C6_counterexample :
    ((start_color_run [ERR, ERR] (Curses.new (Window.mk sampleNativeWindow))
        ⟨true, []⟩).2).trace.count Prim.startColorPrim = 2 := by
  decide

/-- C6 (amended): once `start_color` has succeeded (the Color capability
exists), every later call — and any sequence of later calls — invokes no
underlying primitive, mutates neither the handle nor the global state, and
returns success with the same existing capability; only calls made before
the first success (including failed attempts) invoke the primitive. -/
theorem C6_start_color_idempotent (rets : List Int) (c : Curses)
    (s : GlobalState) (col : Color) (h : c.colorOpt = some col) :
    (∀ r : Int, Curses.start_color r c s = (Except.ok (), c, s))
    ∧ start_color_run rets c s = (c, s) := by
  have hstep : ∀ r : Int, Curses.start_color r c s = (Except.ok (), c, s) := by
    intro r
    simp [Curses.start_color, h]
  refine ⟨hstep, ?_⟩
  induction rets with
  | nil => rfl
  | cons r rest ih =>
    simp only [start_color_run, hstep r]
    exact ih

/-- C6 witness: the amended theorem applied to a handle already holding the
capability, running two further calls (one with a failing oracle). -/
theorem C6_start_color_idempotent_witness :
    start_color_run [ERR, 0]
      ⟨Window.mk sampleNativeWindow, some Color.mk⟩ ⟨true, []⟩
      = (⟨Window.mk sampleNativeWindow, some Color.mk⟩, ⟨true, []⟩) :=
  (C6_start_color_idempotent [ERR, 0]
    ⟨Window.mk sampleNativeWindow, some Color.mk⟩ ⟨true, []⟩ Color.mk rfl).2

/-- C7: while the capability is absent, both `color` and `color_mut` panic
with the source's precondition-violation message and mutate nothing (they
are pure accessors); when the capability is present they return it; and
after any `start_color` call that returns success both accessors return the
capability without panicking. -/
theorem C7_color_accessor_gating (c : Curses) :
    (c.colorOpt = none →
        c.color = PanicOr.panicked
            "Color subsystem has not yet been successfully started"
        ∧ c.color_mut = PanicOr.panicked
            "Color subsystem has not yet been successfully started")
    ∧ (∀ col : Color, c.colorOpt = some col →
        c.color = PanicOr.value col ∧ c.color_mut = PanicOr.value col)
    ∧ (∀ (ret : Int) (s : GlobalState),
        (Curses.start_color ret c s).1 = Except.ok () →
        ((Curses.start_color ret c s).2.1).color = PanicOr.value Color.mk
        ∧ ((Curses.start_color ret c s).2.1).color_mut
            = PanicOr.value Color.mk) := by
  refine ⟨?_, ?_, ?_⟩
  · intro h
    constructor
    · simp [Curses.color, h]
    · simp [Curses.color_mut, h]
  · intro col h
    constructor
    · simp [Curses.color, h]
    · simp [Curses.color_mut, h]
  · intro ret s hok
    cases hc : c.colorOpt with
    | some col =>
      constructor
      · simp [Curses.start_color, hc, Curses.color]
      · simp [Curses.start_color, hc, Curses.color_mut]
    | none =>
      by_cases hr : ret = ERR
      · exfalso
        simp [Curses.start_color, hc, check, hr] at hok
      · constructor
        · simp [Curses.start_color, hc, check, hr, Curses.color]
        · simp [Curses.start_color, hc, check, hr, Curses.color_mut]

/-- C7 witness: a fresh handle panics on `color`, and after a successful
`start_color` the accessor returns the capability. -/
theorem C7_color_accessor_gating_witness :
    (Curses.new (Window.mk sampleNativeWindow)).color
      = PanicOr.panicked "Color subsystem has not yet been successfully started"
    ∧ ((Curses.start_color 0 (Curses.new (Window.mk sampleNativeWindow))
          ⟨true, []⟩).2.1).color = PanicOr.value Color.mk :=
  ⟨((C7_color_accessor_gating (Curses.new (Window.mk sampleNativeWindow))).1
      rfl).1,
   ((C7_color_accessor_gating (Curses.new (Window.mk sampleNativeWindow))).2.2
      0 ⟨true, []⟩ rfl).1⟩

/-- C8: in every state reachable by interleaving two `key_name` invocations
under the handle's `key_name_mutex` — which each invocation holds exactly
for the duration of the `keyname` primitive call — the two threads never
hold the lock simultaneously, so the two primitive calls never overlap. -/
theorem C8_key_name_serialized (st : TwoThreads) (h : KeyNameReachable st) :
    ¬(st.t1.holdsLock = true ∧ st.t2.holdsLock = true) := by
  induction h with
  | init => simp [KeyNamePc.holdsLock]
  | step hr hs ih =>
    cases hs with
    | lock1 t2 h2 => simp [h2]
    | call1 t2 => simpa [KeyNamePc.holdsLock] using ih
    | unlock1 t2 => simp [KeyNamePc.holdsLock]
    | lock2 t1 h1 => simp [h1]
    | call2 t1 => simpa [KeyNamePc.holdsLock] using ih
    | unlock2 t1 => simp [KeyNamePc.holdsLock]

/-- C8 witness: the theorem applied to the reachable state in which thread
one has just acquired the lock while thread two has not started. -/
theorem C8_key_name_serialized_witness :
    ¬(KeyNamePc.holdsLock KeyNamePc.holdingBeforeCall = true
      ∧ KeyNamePc.holdsLock KeyNamePc.beforeLock = true) :=
  C8_key_name_serialized ⟨KeyNamePc.holdingBeforeCall, KeyNamePc.beforeLock⟩
    (KeyNameReachable.step KeyNameReachable.init
      (KeyNameStep.lock1 KeyNamePc.beforeLock rfl))

/-- C9: `set_mouse_interval`, `set_mouse_mask`, and `set_title` return
success for every input and every primitive return value — none of them
converts a sentinel status, so the failure outcome is unreachable. -/
theorem C9_infallible_operations (intervalNanos : Nat)
    (mask primRet1 primRet2 : Int) (title : String) :
    Curses.set_mouse_interval intervalNanos primRet1 = Except.ok ()
    ∧ Curses.set_mouse_mask mask primRet2 = Except.ok primRet2
    ∧ Curses.set_title title = Except.ok ()
    ∧ ∀ e : Unit,
        Curses.set_mouse_interval intervalNanos primRet1 ≠ Except.error e
        ∧ Curses.set_mouse_mask mask primRet2 ≠ Except.error e
        ∧ Curses.set_title title ≠ Except.error e := by
  refine ⟨rfl, rfl, rfl, ?_⟩
  intro e
  refine ⟨?_, ?_, ?_⟩
  · simp [Curses.set_mouse_interval]
  · simp [Curses.set_mouse_mask]
  · simp [Curses.set_title]

/-- C10: for every window, the screen position reported by `ending` equals
the position reported by `beginning` plus the dimension reported by `size`,
componentwise. -/
theorem C10_ending_eq_beginning_plus_size (w : Window) :
    (Window.ending w).y = (Window.beginning w).y + (Window.size w).rows
    ∧ (Window.ending w).x = (Window.beginning w).x + (Window.size w).columns :=
  ⟨rfl, rfl⟩

end Pancurses
